import Mathlib

/-!
Verification of the audio transcription/translation backend (server.js).

The pure logic of the server's request handlers is embedded shallowly:
the persistent audio directory is a list of filenames (or of stat
entries), external effects (ffmpeg conversion, the transcription
backend, the Ollama HTTP call, Math.random) are passed in as explicit
outcome parameters, and each Express/WebSocket handler becomes a pure
function from its inputs and those outcomes to its observable response.
-/

/-! ## Storage manager: filename validation (GET /audio/:filename)

Source: server.js, app.get('/audio/:filename').  A filename is accepted
iff it matches the regular expression from the source,
  /^[a-zA-Z0-9_-]+\.(mp3|wav)$/
i.e. one or more characters from the class [a-zA-Z0-9_-], then a literal
dot, then exactly mp3 or wav.  Since '.' is not in the character class
and the two extensions are literal, the match is deterministic, and the
recursive matcher below recognises exactly the language of that regex.
-/

/-- One character of the allow-list class [a-zA-Z0-9_-] of the source regex. -/
def isFilenameChar (c : Char) : Bool :=
  c.isAlpha || c.isDigit || c == '_' || c == '-'

/-- Recognised audio extensions of the source regex: (mp3|wav). -/
def extOk (l : List Char) : Bool :=
  l == ['m', 'p', '3'] || l == ['w', 'a', 'v']

/-- After at least one allow-list character has been read: either more
allow-list characters follow, or the literal dot and then the extension. -/
def tailMatch : List Char → Bool
  | [] => false
  | c :: rest => if c = '.' then extOk rest else (isFilenameChar c && tailMatch rest)

/-- The whole-string matcher for the source regex: the name part must be
nonempty, so the first character must be an allow-list character. -/
def validChars : List Char → Bool
  | [] => false
  | c :: rest => isFilenameChar c && tailMatch rest

/-- Filename validation of the download endpoint: the source tests
filename.match(/^[a-zA-Z0-9_-]+\.(mp3|wav)$/). -/
def validFilename (s : String) : Bool :=
  validChars s.data

/-- Whether a character list contains two adjacent dots (the substring ".."). -/
def hasDoubleDot : List Char → Bool
  | [] => false
  | [_] => false
  | a :: b :: rest => (a = '.' && b = '.') || hasDoubleDot (b :: rest)

/-- Observable outcome of GET /audio/:filename. -/
inductive AudioGetResult
  | invalidFilename
  | notFound
  | ok (filename : String)
deriving DecidableEq, Repr

/-- GET /audio/:filename.  The source first tests the filename against the
regex (sending 400 Invalid filename on mismatch) and only then calls
fs.existsSync on path.join(audioDir, filename) (sending 404 if absent),
finally streaming the file.  The persistent directory is modelled as the
list of filenames it contains; validation happens before the directory is
consulted, which the theorems express by quantifying over the directory. -/
def getAudioFile (filename : String) (audioDirFiles : List String) : AudioGetResult :=
  if validFilename filename then
    if filename ∈ audioDirFiles then .ok filename else .notFound
  else .invalidFilename

/-! Structure of accepted filenames. -/

theorem tailMatch_decomp : ∀ l : List Char, tailMatch l = true →
    ∃ stem ext, l = stem ++ '.' :: ext ∧ stem.all isFilenameChar = true ∧ extOk ext = true := by
  intro l
  induction l with
  | nil => intro h; simp [tailMatch] at h
  | cons c rest ih =>
    intro h
    simp only [tailMatch] at h
    by_cases hc : c = '.'
    · subst hc
      simp at h
      exact ⟨[], rest, rfl, rfl, h⟩
    · simp [hc] at h
      obtain ⟨stem, ext, hrest, hstem, hext⟩ := ih h.2
      exact ⟨c :: stem, ext, by simp [hrest], by simp [List.all_cons, h.1, hstem], hext⟩

theorem validChars_decomp (l : List Char) (h : validChars l = true) :
    ∃ stem ext, l = stem ++ '.' :: ext ∧ stem ≠ [] ∧
      stem.all isFilenameChar = true ∧ extOk ext = true := by
  cases l with
  | nil => simp [validChars] at h
  | cons c rest =>
    simp only [validChars, Bool.and_eq_true] at h
    obtain ⟨stem, ext, hrest, hstem, hext⟩ := tailMatch_decomp rest h.2
    exact ⟨c :: stem, ext, by simp [hrest], by simp,
      by simp [List.all_cons, h.1, hstem], hext⟩

theorem extOk_chars {e : List Char} (h : extOk e = true) {c : Char} (hm : c ∈ e) :
    c ∈ ['m', 'p', '3', 'w', 'a', 'v'] := by
  simp only [extOk, Bool.or_eq_true, beq_iff_eq] at h
  rcases h with h | h <;> subst h <;> simp at hm <;> rcases hm with h | h | h <;> simp [h]

theorem hasDoubleDot_count : ∀ l : List Char, hasDoubleDot l = true → 2 ≤ l.count '.' := by
  intro l
  induction l with
  | nil => intro h; simp [hasDoubleDot] at h
  | cons a rest ih =>
    intro h
    cases rest with
    | nil => simp [hasDoubleDot] at h
    | cons b rest2 =>
      simp only [hasDoubleDot, Bool.or_eq_true, Bool.and_eq_true, decide_eq_true_eq] at h
      rcases h with ⟨ha, hb⟩ | h
      · subst ha; subst hb
        simp [List.count_cons]
      · have := ih h
        have hmono : (b :: rest2).count '.' ≤ (a :: b :: rest2).count '.' :=
          List.count_le_count_cons '.' a _
        omega

theorem valid_count_dot (l : List Char) (h : validChars l = true) : l.count '.' = 1 := by
  obtain ⟨stem, ext, rfl, _, hstem, hext⟩ := validChars_decomp l h
  have hstemz : stem.count '.' = 0 := by
    rw [List.count_eq_zero]
    intro hmem
    have := (List.all_eq_true.mp hstem) '.' hmem
    simp [isFilenameChar] at this
  have hextz : ext.count '.' = 0 := by
    rw [List.count_eq_zero]
    intro hmem
    have := extOk_chars hext hmem
    simp at this
  simp [List.count_append, List.count_cons, hstemz, hextz]

theorem valid_no_slash (l : List Char) (h : validChars l = true) : '/' ∉ l := by
  obtain ⟨stem, ext, rfl, _, hstem, hext⟩ := validChars_decomp l h
  intro hmem
  simp only [List.mem_append, List.mem_cons] at hmem
  rcases hmem with hmem | hmem | hmem
  · have := (List.all_eq_true.mp hstem) '/' hmem
    simp [isFilenameChar] at this
  · simp at hmem
  · have := extOk_chars hext hmem
    simp at this

theorem valid_no_null (l : List Char) (h : validChars l = true) : Char.ofNat 0 ∉ l := by
  obtain ⟨stem, ext, rfl, _, hstem, hext⟩ := validChars_decomp l h
  intro hmem
  simp only [List.mem_append, List.mem_cons] at hmem
  rcases hmem with hmem | hmem | hmem
  · have := (List.all_eq_true.mp hstem) (Char.ofNat 0) hmem
    simp [isFilenameChar] at this
  · simp at hmem
  · have := extOk_chars hext hmem
    simp at this

/-- C1: every filename path segment of the audio download endpoint that does
not match the pattern of the source regex is rejected with the Invalid
filename client error, and this outcome is independent of the directory
contents (no filesystem access decides it); any string containing "..",
"/" or a null byte fails the pattern; a matching name that is present in
the persistent directory downloads successfully, and a matching name that
is absent yields the not-found error. -/
theorem c1_audio_download_validation (s : String) (fs : List String) :
    (validFilename s = false → ∀ fs2 : List String, getAudioFile s fs2 = .invalidFilename) ∧
    (hasDoubleDot s.data = true ∨ '/' ∈ s.data ∨ Char.ofNat 0 ∈ s.data →
      validFilename s = false) ∧
    (validFilename s = true → s ∈ fs → getAudioFile s fs = .ok s) ∧
    (validFilename s = true → s ∉ fs → getAudioFile s fs = .notFound) := by
  refine ⟨fun h fs2 => by simp [getAudioFile, h], fun h => ?_,
    fun hv hm => by simp [getAudioFile, hv, hm], fun hv hm => by simp [getAudioFile, hv, hm]⟩
  rcases h with h | h | h
  · by_contra hv
    simp only [validFilename, Bool.not_eq_false] at hv
    have := valid_count_dot s.data hv
    have := hasDoubleDot_count s.data h
    omega
  · by_contra hv
    simp only [validFilename, Bool.not_eq_false] at hv
    exact valid_no_slash s.data hv h
  · by_contra hv
    simp only [validFilename, Bool.not_eq_false] at hv
    exact valid_no_null s.data hv h

/-- C1 witness: concrete red and green instances of the validation theorem. -/
theorem c1_witness :
    getAudioFile "../../etc/passwd" ["audio_1_a.mp3"] = .invalidFilename ∧
    validFilename "..mp3" = false ∧
    getAudioFile "audio_1_a.mp3" ["audio_1_a.mp3"] = .ok "audio_1_a.mp3" ∧
    getAudioFile "audio_2_b.mp3" ["audio_1_a.mp3"] = .notFound :=
  ⟨(c1_audio_download_validation "../../etc/passwd" ["audio_1_a.mp3"]).1 (by decide) _,
   (c1_audio_download_validation "..mp3" []).2.1 (Or.inl (by decide)),
   (c1_audio_download_validation "audio_1_a.mp3" ["audio_1_a.mp3"]).2.2.1 (by decide) (by decide),
   (c1_audio_download_validation "audio_2_b.mp3" ["audio_1_a.mp3"]).2.2.2 (by decide) (by decide)⟩

/-! ## Storage manager: canonical filename generation

Source: handleAudioChunk builds
  mp3Filename = `audio_${timestamp}_${uniqueId}.mp3`
and app.post('/transcribe') builds
  mp3Filename = `uploaded_${timestamp}_${uniqueId}.mp3`
with timestamp = Date.now() (a millisecond integer) and uniqueId = uuidv4()
(hexadecimal digits and hyphens, hence no underscore).  The JS template
literal renders the timestamp as its decimal numeral; natToDecimal below
is that rendering (structural recursion on a fuel argument so that the
definition evaluates by kernel reduction).  Name generation consults no
filesystem state: it is a pure function of (prefix, timestamp, uniqueId).
-/

/-- Numeric value of a decimal digit character. -/
def charVal (c : Char) : Nat := c.toNat - 48

/-- Value of a most-significant-first decimal digit string. -/
def decimalValue (l : List Char) : Nat :=
  l.foldl (fun a c => a * 10 + charVal c) 0

/-- Decimal rendering with explicit fuel (the fuel only bounds the recursion
depth; natToDecimal supplies enough of it). -/
def toDecAux : Nat → Nat → List Char
  | 0, _ => []
  | fuel + 1, n => if n < 10 then [Nat.digitChar n] else toDecAux fuel (n / 10) ++ [Nat.digitChar (n % 10)]

/-- The decimal numeral of a natural number, most significant digit first:
the rendering of a JS number by a template literal. -/
def natToDecimal (n : Nat) : List Char := toDecAux (n + 1) n

/-- String form of the decimal numeral. -/
def decStr (n : Nat) : String := ⟨natToDecimal n⟩

theorem charVal_digitChar : ∀ n : Nat, n < 10 → charVal (Nat.digitChar n) = n := by decide

theorem digitChar_isDigit : ∀ n : Nat, n < 10 → (Nat.digitChar n).isDigit = true := by decide

theorem toDecAux_digits : ∀ fuel n : Nat, ∀ c ∈ toDecAux fuel n, c.isDigit = true := by
  intro fuel
  induction fuel with
  | zero => intro n c hc; simp [toDecAux] at hc
  | succ fuel ih =>
    intro n c hc
    simp only [toDecAux] at hc
    by_cases h : n < 10
    · simp [h] at hc
      subst hc
      exact digitChar_isDigit n h
    · simp [h] at hc
      rcases hc with hc | hc
      · exact ih (n / 10) c hc
      · subst hc
        exact digitChar_isDigit (n % 10) (Nat.mod_lt n (by omega))

theorem decimalValue_append_digit (l : List Char) (c : Char) :
    decimalValue (l ++ [c]) = decimalValue l * 10 + charVal c := by
  simp [decimalValue, List.foldl_append]

theorem toDecAux_value : ∀ fuel n : Nat, n < fuel → decimalValue (toDecAux fuel n) = n := by
  intro fuel
  induction fuel with
  | zero => intro n h; omega
  | succ fuel ih =>
    intro n h
    simp only [toDecAux]
    by_cases h10 : n < 10
    · simp [h10, decimalValue, charVal_digitChar n h10]
    · have hdiv : n / 10 < fuel := by omega
      simp only [h10, if_false]
      rw [decimalValue_append_digit, ih (n / 10) hdiv,
        charVal_digitChar (n % 10) (Nat.mod_lt n (by omega))]
      omega

theorem natToDecimal_value (n : Nat) : decimalValue (natToDecimal n) = n :=
  toDecAux_value (n + 1) n (Nat.lt_succ_self n)

theorem natToDecimal_inj {m n : Nat} (h : natToDecimal m = natToDecimal n) : m = n := by
  have hv := congrArg decimalValue h
  rwa [natToDecimal_value, natToDecimal_value] at hv

theorem natToDecimal_no_underscore (n : Nat) : '_' ∉ natToDecimal n := by
  intro h
  have := toDecAux_digits (n + 1) n '_' h
  simp [Char.isDigit] at this

/-- Splitting at the first underscore of a character list is unambiguous. -/
theorem append_underscore_inj : ∀ l1 r1 l2 r2 : List Char, '_' ∉ l1 → '_' ∉ l2 →
    l1 ++ '_' :: r1 = l2 ++ '_' :: r2 → l1 = l2 ∧ r1 = r2 := by
  intro l1
  induction l1 with
  | nil =>
    intro r1 l2 r2 _ h2 h
    cases l2 with
    | nil => simp at h; exact ⟨rfl, h⟩
    | cons b l2 =>
      exfalso
      simp at h
      exact h2 (h.1 ▸ List.mem_cons_self b l2)
  | cons a l1 ih =>
    intro r1 l2 r2 h1 h2 h
    cases l2 with
    | nil =>
      exfalso
      simp at h
      exact h1 (h.1 ▸ List.mem_cons_self a l1)
    | cons b l2 =>
      simp only [List.cons_append, List.cons.injEq] at h
      obtain ⟨e1, e2⟩ := ih r1 l2 r2 (fun hm => h1 (List.mem_cons_of_mem a hm))
        (fun hm => h2 (List.mem_cons_of_mem b hm)) h.2
      exact ⟨by rw [h.1, e1], e2⟩

/-- Canonical artifact name: `<prefix>_<timestamp>_<uniqueId>.mp3`. -/
def mp3Name (pre : String) (timestamp : Nat) (uniqueId : String) : String :=
  pre ++ "_" ++ decStr timestamp ++ "_" ++ uniqueId ++ ".mp3"

/-- Canonical name of a streaming-origin job (handleAudioChunk). -/
def streamingMp3Name (timestamp : Nat) (uniqueId : String) : String :=
  mp3Name "audio" timestamp uniqueId

/-- Canonical name of an upload-origin job (app.post('/transcribe')). -/
def uploadedMp3Name (timestamp : Nat) (uniqueId : String) : String :=
  mp3Name "uploaded" timestamp uniqueId

theorem mp3Name_data (pre : String) (t : Nat) (u : String) :
    (mp3Name pre t u).data =
      pre.data ++ '_' :: (natToDecimal t ++ '_' :: (u.data ++ ['.', 'm', 'p', '3'])) := by
  simp [mp3Name, decStr, String.data_append]

theorem mp3Name_inj (pre : String) {t1 t2 : Nat} {u1 u2 : String}
    (h : mp3Name pre t1 u1 = mp3Name pre t2 u2) : t1 = t2 ∧ u1 = u2 := by
  have hd := congrArg String.data h
  rw [mp3Name_data, mp3Name_data] at hd
  have h1 := List.append_cancel_left hd
  simp only [List.cons.injEq, true_and] at h1
  obtain ⟨e1, e2⟩ := append_underscore_inj (natToDecimal t1) _ (natToDecimal t2) _
    (natToDecimal_no_underscore t1) (natToDecimal_no_underscore t2) h1
  refine ⟨natToDecimal_inj e1, String.ext (List.append_cancel_right e2)⟩

theorem streaming_ne_uploaded (t1 t2 : Nat) (u1 u2 : String) :
    streamingMp3Name t1 u1 ≠ uploadedMp3Name t2 u2 := by
  intro h
  have hd := congrArg String.data h
  rw [streamingMp3Name, uploadedMp3Name, mp3Name_data, mp3Name_data] at hd
  have ha : "audio".data = 'a' :: "udio".data := by decide
  have hb : "uploaded".data = 'u' :: "ploaded".data := by decide
  rw [ha, hb] at hd
  simp at hd

/-- C5: canonical artifact names have the form prefix_timestamp_uniqueId.mp3,
with prefix audio for streaming-origin and uploaded for upload-origin jobs;
generations with
distinct (timestamp, token) pairs yield distinct filenames, and a
streaming-origin name never equals an upload-origin name.  mp3Name takes no
filesystem argument: no check of existing files is involved. -/
theorem c5_canonical_naming (t1 t2 : Nat) (u1 u2 : String) :
    streamingMp3Name t1 u1 = "audio" ++ "_" ++ decStr t1 ++ "_" ++ u1 ++ ".mp3" ∧
    uploadedMp3Name t1 u1 = "uploaded" ++ "_" ++ decStr t1 ++ "_" ++ u1 ++ ".mp3" ∧
    ((t1, u1) ≠ (t2, u2) → streamingMp3Name t1 u1 ≠ streamingMp3Name t2 u2) ∧
    ((t1, u1) ≠ (t2, u2) → uploadedMp3Name t1 u1 ≠ uploadedMp3Name t2 u2) ∧
    streamingMp3Name t1 u1 ≠ uploadedMp3Name t2 u2 := by
  refine ⟨rfl, rfl, fun hne h => hne ?_, fun hne h => hne ?_,
    streaming_ne_uploaded t1 t2 u1 u2⟩
  · obtain ⟨e1, e2⟩ := mp3Name_inj "audio" h
    rw [e1, e2]
  · obtain ⟨e1, e2⟩ := mp3Name_inj "uploaded" h
    rw [e1, e2]

/-- C5 witness: distinct concrete (timestamp, token) pairs produce distinct
names, and the two prefixes never collide. -/
theorem c5_witness :
    streamingMp3Name 1700000000000 "ab-1" ≠ streamingMp3Name 1700000000001 "ab-1" ∧
    streamingMp3Name 1700000000000 "ab-1" ≠ uploadedMp3Name 1700000000000 "ab-1" :=
  ⟨(c5_canonical_naming 1700000000000 1700000000001 "ab-1" "ab-1").2.2.1 (by decide),
   (c5_canonical_naming 1700000000000 1700000000000 "ab-1" "ab-1").2.2.2.2⟩

/-! ## Transcription backend placeholder (transcribeAudio)

Source: transcribeAudio reads the artifact's size
  fileSizeKB = Math.round(fs.statSync(path).size / 1024)
waits  Math.min(2000, fileSizeKB * 10)  milliseconds, and returns
  `${mockTranscriptions[randomIndex]} (Archivo: ${fileSizeKB}KB)`
where randomIndex = Math.floor(Math.random() * mockTranscriptions.length).
The random draw is modelled as an explicit argument; the artifact is
modelled by its byte size (the only attribute the placeholder reads).
-/

/-- The five fixed template sentences of the placeholder backend. -/
def mockTranscriptions : List String :=
  ["Hola, este es un ejemplo de transcripción de audio.",
   "Audio transcrito correctamente desde el archivo MP3.",
   "El sistema de transcripción está funcionando correctamente.",
   "Procesando archivo de audio para generar texto.",
   "Transcripción automática generada con éxito."]

/-- Math.round(sizeBytes / 1024): round half up on a nonnegative value. -/
def fileSizeKB (sizeBytes : Nat) : Nat := (sizeBytes + 512) / 1024

/-- The simulated processing delay: Math.min(2000, fileSizeKB * 10). -/
def processingTime (sizeBytes : Nat) : Nat := min 2000 (fileSizeKB sizeBytes * 10)

/-- The text returned by the placeholder backend, with the random draw of
Math.floor(Math.random() * 5) passed in as randomIndex (always < 5). -/
def transcribeAudio (sizeBytes : Nat) (randomIndex : Nat) : String :=
  mockTranscriptions.getD randomIndex "" ++ " (Archivo: " ++ decStr (fileSizeKB sizeBytes) ++ "KB)"

/-- C6 counterexample: the placeholder is not deterministic in the artifact.
Two invocations on the same unchanged artifact (same byte size, here 1024
bytes) with different random draws return different texts, refuting the
claim that the returned text is a function of the artifact alone. -/
theorem c6_counterexample : transcribeAudio 1024 0 ≠ transcribeAudio 1024 1 := by decide

/-- C6 amended: the placeholder's output is a function of the artifact's byte
size and of a random draw: it is one of the five fixed template sentences
annotated with the artifact's size in KB, after a processing delay
proportional to the size and capped at 2000; the delay and the annotation
depend only on the size, but the template sentence is chosen at random, so
repeated invocations on the same artifact may return different texts. -/
theorem c6_amended (sizeBytes randomIndex : Nat) (h : randomIndex < 5) :
    transcribeAudio sizeBytes randomIndex ∈
      mockTranscriptions.map (fun t => t ++ " (Archivo: " ++ decStr (fileSizeKB sizeBytes) ++ "KB)") ∧
    processingTime sizeBytes ≤ 2000 ∧
    (fileSizeKB sizeBytes * 10 ≤ 2000 → processingTime sizeBytes = fileSizeKB sizeBytes * 10) := by
  refine ⟨?_, Nat.min_le_left _ _, fun hle => Nat.min_eq_right hle⟩
  have : mockTranscriptions.getD randomIndex "" ∈ mockTranscriptions := by
    interval_cases randomIndex <;> simp [mockTranscriptions]
  exact List.mem_map_of_mem _ this

/-- C6 amended witness: the amended statement at a concrete size and draw. -/
theorem c6_amended_witness :
    transcribeAudio 1024 3 ∈
      mockTranscriptions.map (fun t => t ++ " (Archivo: " ++ decStr (fileSizeKB 1024) ++ "KB)") ∧
    processingTime 1024 ≤ 2000 ∧
    processingTime 1024 = fileSizeKB 1024 * 10 :=
  ⟨(c6_amended 1024 3 (by decide)).1, (c6_amended 1024 3 (by decide)).2.1,
   (c6_amended 1024 3 (by decide)).2.2 (by decide)⟩

/-! ## Pipeline cleanup (handleAudioChunk and POST /transcribe)

Source control flow of handleAudioChunk: inside one try block it stages the
temp file (saveAudioChunk), converts it to MP3 (convertToMp3), transcribes
(transcribeAudio), sends the transcription notification, auto-translates
(handleTranslation, which catches its own errors and never throws), and
only then — still inside the try block, not in a finally — unlinks the temp
file.  The catch block sends an error notification and performs no unlink.
Source control flow of POST /transcribe: conversion and transcription run
inside a try whose finally unlinks the multer-staged upload on every exit.
Each stage's success or failure is passed in as an explicit outcome.
-/

/-- Outcome of one pipeline stage. -/
inductive StageOutcome
  | success
  | failure
deriving DecidableEq, Repr

/-- Observable filesystem and notification effects of one handleAudioChunk
run (streaming ingress). -/
structure StreamRun where
  tempWritten : Bool
  tempDeletions : Nat
  errorSent : Bool
  transcriptionSent : Bool
deriving DecidableEq, Repr

/-- Effects of handleAudioChunk as a function of the stage outcomes: a
staging failure throws before the temp file exists; a conversion or
transcription failure jumps to the catch block, skipping the cleanup that
sits at the end of the try block; only the all-success path unlinks the
temp file (exactly once, guarded by fs.existsSync). -/
def runHandleAudioChunk (staging conversion transcription : StageOutcome) : StreamRun :=
  match staging with
  | .failure => { tempWritten := false, tempDeletions := 0, errorSent := true, transcriptionSent := false }
  | .success =>
    match conversion with
    | .failure => { tempWritten := true, tempDeletions := 0, errorSent := true, transcriptionSent := false }
    | .success =>
      match transcription with
      | .failure => { tempWritten := true, tempDeletions := 0, errorSent := true, transcriptionSent := false }
      | .success => { tempWritten := true, tempDeletions := 1, errorSent := false, transcriptionSent := true }

/-- The staged temp artifact still exists after the run. -/
def tempExistsAfter (r : StreamRun) : Bool := r.tempWritten && r.tempDeletions == 0

/-- Observable effects of one POST /transcribe run (one-shot ingress) on the
multer-staged upload file. -/
structure UploadRun where
  stagedWritten : Bool
  stagedDeletions : Nat
  succeeded : Bool
deriving DecidableEq, Repr

/-- Effects of POST /transcribe: without an audio file the handler returns
400 before anything is staged; with one, the finally block unlinks the
staged upload exactly once on the success path and on every failure path. -/
def runUploadTranscribe (filePresent : Bool) (conversion transcription : StageOutcome) : UploadRun :=
  if filePresent then
    match conversion with
    | .failure => { stagedWritten := true, stagedDeletions := 1, succeeded := false }
    | .success =>
      match transcription with
      | .failure => { stagedWritten := true, stagedDeletions := 1, succeeded := false }
      | .success => { stagedWritten := true, stagedDeletions := 1, succeeded := true }
  else { stagedWritten := false, stagedDeletions := 0, succeeded := false }

/-- The staged upload still exists after the run. -/
def stagedExistsAfter (r : UploadRun) : Bool := r.stagedWritten && r.stagedDeletions == 0

/-- C2 counterexample: a streaming job whose conversion fails reaches its
terminal failure notification with the staged temp artifact still present
and never deleted, refuting the claim that in both ingress modes the staged
source artifact is deleted on every failure branch. -/
theorem c2_counterexample :
    tempExistsAfter (runHandleAudioChunk .success .failure .success) = true ∧
    (runHandleAudioChunk .success .failure .success).errorSent = true ∧
    (runHandleAudioChunk .success .failure .success).tempDeletions = 0 := by decide

/-- C2 amended: the one-shot mode deletes its staged upload exactly once on
the success branch and on every failure branch (the staged artifact is
always absent after the run); the streaming mode deletes its staged temp
file at most once, and does so exactly when all stages succeed — after a
conversion or transcription failure the temp artifact remains. -/
theorem c2_amended (s c t : StageOutcome) (fp : Bool) :
    (tempExistsAfter (runHandleAudioChunk s c t) = true ↔
      s = .success ∧ (c = .failure ∨ t = .failure)) ∧
    (runHandleAudioChunk s c t).tempDeletions ≤ 1 ∧
    ((runHandleAudioChunk s c t).tempDeletions = 1 ↔
      s = .success ∧ c = .success ∧ t = .success) ∧
    stagedExistsAfter (runUploadTranscribe fp c t) = false ∧
    (runUploadTranscribe fp c t).stagedDeletions = (if fp then 1 else 0) := by
  cases s <;> cases c <;> cases t <;> cases fp <;> decide

/-! ## Staging location of the streaming path (saveAudioChunk)

Source: saveAudioChunk(audioData, filename) writes its buffer to
path.join(audioDir, filename) — the same persistent directory that the
listing and download endpoints serve — and handleAudioChunk stages the
pre-conversion payload under
  tempFilename = `temp_${timestamp}_${uniqueId}.wav`.
The directory is modelled as the list of filenames it contains.
-/

/-- saveAudioChunk: writing filename into the persistent audio directory. -/
def saveAudioChunk (audioDir : List String) (filename : String) : List String :=
  filename :: audioDir

/-- The staged temp filename of a streaming job. -/
def tempWavName (timestamp : Nat) (uniqueId : String) : String :=
  "temp_" ++ decStr timestamp ++ "_" ++ uniqueId ++ ".wav"

/-- The persistent audio directory right after handleAudioChunk stages a
streaming job's payload. -/
def audioDirAfterStaging (audioDir : List String) (timestamp : Nat) (uniqueId : String) : List String :=
  saveAudioChunk audioDir (tempWavName timestamp uniqueId)

/-! ## Artifact listing (GET /audio)

Source: the endpoint reads the persistent directory, keeps the names ending
in .mp3 or .wav, maps each to { filename, size, created: birthtime,
modified: mtime } via fs.statSync, and sorts by creation date, newest
first, with the comparator (a, b) => b.created - a.created.  A directory
entry together with its stat fields is modelled as a StoredArtifact with
millisecond timestamps; Array.prototype.sort with a consistent comparator
is modelled by insertion sort under the comparator's order. -/

/-- JS String.prototype.endsWith on the character sequence: s ends with
suffix iff the last suffix.length characters of s are exactly suffix.
(Core's String.endsWith is extensionally the same test but is defined by
well-founded recursion on byte positions, which the kernel cannot
evaluate; this structural form keeps the development executable.) -/
def strEndsWith (s suffix : String) : Bool :=
  s.data.drop (s.data.length - suffix.data.length) == suffix.data

theorem strEndsWith_append (pre suf : List Char) :
    strEndsWith ⟨pre ++ suf⟩ ⟨suf⟩ = true := by
  simp [strEndsWith, List.length_append, List.drop_left]

/-- A persisted artifact catalog entry: filename plus stat fields. -/
structure StoredArtifact where
  filename : String
  size : Nat
  created : Nat
  modified : Nat
deriving DecidableEq, Repr

/-- The extension filter of GET /audio. -/
def audioExtFilter (f : StoredArtifact) : Bool :=
  strEndsWith f.filename ".mp3" || strEndsWith f.filename ".wav"

/-- Newest-first order: the comparator (a, b) => b.created - a.created. -/
def createdDesc (a b : StoredArtifact) : Prop := b.created ≤ a.created

instance : DecidableRel createdDesc := fun a b => Nat.decLe b.created a.created

instance : IsTotal StoredArtifact createdDesc :=
  ⟨fun a b => Nat.le_total b.created a.created⟩

instance : IsTrans StoredArtifact createdDesc :=
  ⟨fun _ _ _ h1 h2 => Nat.le_trans h2 h1⟩

/-- GET /audio over a directory of stat-annotated entries. -/
def listAudioFiles (audioDir : List StoredArtifact) : List StoredArtifact :=
  (audioDir.filter audioExtFilter).insertionSort createdDesc

/-- C7 counterexample: the listing is not restricted to the canonical .mp3
extension — an entry carrying the .wav extension (here a staged streaming
temp file) is enumerated as well. -/
theorem c7_counterexample :
    listAudioFiles [⟨"temp_9_x.wav", 5, 10, 10⟩] = [⟨"temp_9_x.wav", 5, 10, 10⟩] ∧
    strEndsWith "temp_9_x.wav" ".mp3" = false ∧
    strEndsWith "temp_9_x.wav" ".wav" = true := by decide

/-- C7 amended: the listing enumerates exactly the entries of the persistent
directory carrying a recognised audio extension (.mp3 or .wav — not only
the canonical .mp3), each as its filename/size/creation/modification
tuple, ordered newest-first by creation time. -/
theorem c7_listing (audioDir : List StoredArtifact) :
    (listAudioFiles audioDir).Sorted createdDesc ∧
    (listAudioFiles audioDir).Perm (audioDir.filter audioExtFilter) ∧
    (∀ e ∈ listAudioFiles audioDir,
      e ∈ audioDir ∧ (strEndsWith e.filename ".mp3" || strEndsWith e.filename ".wav") = true) := by
  refine ⟨List.sorted_insertionSort createdDesc _, List.perm_insertionSort createdDesc _,
    fun e he => ?_⟩
  have hmem : e ∈ audioDir.filter audioExtFilter :=
    ((List.perm_insertionSort createdDesc _).mem_iff).mp he
  have := List.mem_filter.mp hmem
  exact ⟨this.1, this.2⟩

/-- C7 amended witness: the listing of a concrete two-entry directory is
sorted newest-first, is a permutation of its audio-extension entries, and
every returned entry comes from the directory with an audio extension. -/
theorem c7_listing_witness :
    (listAudioFiles [⟨"audio_1_a.mp3", 3, 100, 100⟩, ⟨"audio_2_b.mp3", 4, 200, 200⟩]).Sorted createdDesc ∧
    (listAudioFiles [⟨"audio_1_a.mp3", 3, 100, 100⟩, ⟨"audio_2_b.mp3", 4, 200, 200⟩]).Perm
      ([⟨"audio_1_a.mp3", 3, 100, 100⟩, ⟨"audio_2_b.mp3", 4, 200, 200⟩].filter audioExtFilter) ∧
    (⟨"audio_2_b.mp3", 4, 200, 200⟩ : StoredArtifact) ∈
      [(⟨"audio_1_a.mp3", 3, 100, 100⟩ : StoredArtifact), ⟨"audio_2_b.mp3", 4, 200, 200⟩] ∧
    (strEndsWith "audio_2_b.mp3" ".mp3" || strEndsWith "audio_2_b.mp3" ".wav") = true :=
  ⟨(c7_listing [⟨"audio_1_a.mp3", 3, 100, 100⟩, ⟨"audio_2_b.mp3", 4, 200, 200⟩]).1,
   (c7_listing [⟨"audio_1_a.mp3", 3, 100, 100⟩, ⟨"audio_2_b.mp3", 4, 200, 200⟩]).2.1,
   ((c7_listing [⟨"audio_1_a.mp3", 3, 100, 100⟩, ⟨"audio_2_b.mp3", 4, 200, 200⟩]).2.2
     ⟨"audio_2_b.mp3", 4, 200, 200⟩ (by decide)).1,
   ((c7_listing [⟨"audio_1_a.mp3", 3, 100, 100⟩, ⟨"audio_2_b.mp3", 4, 200, 200⟩]).2.2
     ⟨"audio_2_b.mp3", 4, 200, 200⟩ (by decide)).2⟩

/-! ## C3: what reaches the persistent directory -/

theorem tailMatch_append (l e : List Char) (hl : l.all isFilenameChar = true)
    (he : extOk e = true) : tailMatch (l ++ '.' :: e) = true := by
  induction l with
  | nil => simp [tailMatch, he]
  | cons c l ih =>
    simp only [List.all_cons, Bool.and_eq_true] at hl
    have hc : c ≠ '.' := fun hcc => by
      rw [hcc] at hl
      exact absurd hl.1 (by decide)
    simp [tailMatch, hc, hl.1, ih hl.2]

theorem validChars_append (stem e : List Char) (h1 : stem ≠ [])
    (h2 : stem.all isFilenameChar = true) (h3 : extOk e = true) :
    validChars (stem ++ '.' :: e) = true := by
  cases stem with
  | nil => contradiction
  | cons c l =>
    simp only [List.all_cons, Bool.and_eq_true] at h2
    simp only [List.cons_append, validChars, Bool.and_eq_true]
    exact ⟨h2.1, tailMatch_append l e h2.2 h3⟩

theorem tempWavName_data (t : Nat) (u : String) :
    (tempWavName t u).data =
      (['t', 'e', 'm', 'p', '_'] ++ (natToDecimal t ++ '_' :: u.data)) ++ '.' :: ['w', 'a', 'v'] := by
  have h1 : "temp_".data = ['t', 'e', 'm', 'p', '_'] := rfl
  have h2 : "_".data = ['_'] := rfl
  have h3 : ".wav".data = ['.', 'w', 'a', 'v'] := rfl
  simp [tempWavName, decStr, String.data_append, h1, h2, h3]

theorem tempWavName_valid (t : Nat) (u : String)
    (hu : u.data.all isFilenameChar = true) : validFilename (tempWavName t u) = true := by
  rw [validFilename, tempWavName_data]
  refine validChars_append _ _ (by simp) ?_ (by decide)
  simp only [List.all_append, List.all_cons, Bool.and_eq_true]
  refine ⟨by decide, ?_, by decide, hu⟩
  rw [List.all_eq_true]
  intro c hc
  have hd := toDecAux_digits (t + 1) t c hc
  simp [isFilenameChar, hd]

theorem tempWavName_endsWith_wav (t : Nat) (u : String) :
    strEndsWith (tempWavName t u) ".wav" = true := by
  have he : tempWavName t u =
      ⟨(['t', 'e', 'm', 'p', '_'] ++ (natToDecimal t ++ '_' :: u.data)) ++ ['.', 'w', 'a', 'v']⟩ :=
    String.ext (tempWavName_data t u)
  rw [he]
  exact strEndsWith_append _ _

/-- C3 counterexample: handleAudioChunk stages its pre-conversion payload
inside the persistent audio directory — after staging a streaming job, the
directory contains temp_1_ab.wav, the listing endpoint enumerates that
staged artifact (it carries the .wav extension the filter admits), and the
download endpoint serves it, refuting the claim that only the canonical
converted artifact is ever placed there and that the listing and download
endpoints never expose a non-canonical file. -/
theorem c3_counterexample :
    audioDirAfterStaging [] 1 "ab" = ["temp_1_ab.wav"] ∧
    listAudioFiles [⟨"temp_1_ab.wav", 7, 3, 3⟩] = [⟨"temp_1_ab.wav", 7, 3, 3⟩] ∧
    getAudioFile "temp_1_ab.wav" (audioDirAfterStaging [] 1 "ab") = .ok "temp_1_ab.wav" := by
  decide

/-- C3 amended: the upload path stages outside the persistent directory, but
the streaming path stages its pre-conversion .wav artifact inside it: for
every streaming job the staged temp filename is placed in the persistent
audio directory, passes the download endpoint's validation (its unique
token being alphanumeric-hyphen, as uuidv4 produces), is served by the
download endpoint while staged, carries the .wav extension, and is
admitted by the listing endpoint's extension filter whatever its stat
fields. -/
theorem c3_staging_exposed (audioDir : List String) (t : Nat) (u : String)
    (hu : u.data.all isFilenameChar = true) :
    tempWavName t u ∈ audioDirAfterStaging audioDir t u ∧
    validFilename (tempWavName t u) = true ∧
    getAudioFile (tempWavName t u) (audioDirAfterStaging audioDir t u) = .ok (tempWavName t u) ∧
    strEndsWith (tempWavName t u) ".wav" = true ∧
    (∀ size created modified : Nat,
      audioExtFilter ⟨tempWavName t u, size, created, modified⟩ = true) := by
  have hv := tempWavName_valid t u hu
  have hmem : tempWavName t u ∈ audioDirAfterStaging audioDir t u := by
    simp [audioDirAfterStaging, saveAudioChunk]
  refine ⟨hmem, hv, by simp [getAudioFile, hv, hmem], tempWavName_endsWith_wav t u,
    fun size created modified => ?_⟩
  simp [audioExtFilter, tempWavName_endsWith_wav t u]

/-- C3 amended witness: the amended statement at a concrete directory, job
timestamp and unique token. -/
theorem c3_staging_exposed_witness :
    tempWavName 2 "cd" ∈ audioDirAfterStaging ["audio_1_ab.mp3"] 2 "cd" ∧
    validFilename (tempWavName 2 "cd") = true ∧
    getAudioFile (tempWavName 2 "cd") (audioDirAfterStaging ["audio_1_ab.mp3"] 2 "cd") =
      .ok (tempWavName 2 "cd") ∧
    strEndsWith (tempWavName 2 "cd") ".wav" = true ∧
    audioExtFilter ⟨tempWavName 2 "cd", 7, 3, 3⟩ = true :=
  ⟨(c3_staging_exposed ["audio_1_ab.mp3"] 2 "cd" (by decide)).1,
   (c3_staging_exposed ["audio_1_ab.mp3"] 2 "cd" (by decide)).2.1,
   (c3_staging_exposed ["audio_1_ab.mp3"] 2 "cd" (by decide)).2.2.1,
   (c3_staging_exposed ["audio_1_ab.mp3"] 2 "cd" (by decide)).2.2.2.1,
   (c3_staging_exposed ["audio_1_ab.mp3"] 2 "cd" (by decide)).2.2.2.2 7 3 3⟩

/-! ## One-shot upload pipeline response (POST /transcribe)

Source: after multer staging, the handler reads
  const { targetLanguage = 'en' } = req.body;
(the default applies only when the field is absent), converts the upload,
transcribes it, and then
  if (targetLanguage && targetLanguage !== 'auto' && transcriptionText.trim())
attempts the translation inside an inner try/catch whose catch only logs,
leaving translationResult null; the 200 response carries transcription,
audioFile, translation, timestamp and originalFile.  Conversion and
transcription failures reach the outer catch and produce a 500 response.
-/

/-- JS String.prototype.trim on the character sequence: strip whitespace
from both ends.  (Core's String.trim is the same operation but is defined
via byte-position loops the kernel cannot evaluate.) -/
def strTrim (s : String) : String :=
  ⟨((s.data.dropWhile Char.isWhitespace).reverse.dropWhile Char.isWhitespace).reverse⟩

/-- Outcome of a stage that produces text (transcription backend, Ollama
translation call): the text it returned, or a thrown error. -/
inductive TrOutcome
  | ok (text : String)
  | fail
deriving DecidableEq, Repr

/-- The translation object of a successful translation attempt. -/
structure TranslationResult where
  translatedText : String
  targetLanguage : String
deriving DecidableEq, Repr

/-- Observable JSON response of POST /transcribe. -/
structure TranscribeResponse where
  status : Nat
  transcription : Option String := none
  audioFile : Option String := none
  translation : Option TranslationResult := none
  originalFile : Option String := none
  errorMsg : Option String := none
deriving DecidableEq, Repr

/-- The effective target language: the destructuring default 'en' applies
exactly when the field is absent from the request body. -/
def effectiveTargetLanguage (targetLanguage : Option String) : String :=
  targetLanguage.getD "en"

/-- The guard of the translation attempt:
targetLanguage && targetLanguage !== 'auto' && transcriptionText.trim()
(a JS string is truthy iff nonempty). -/
def translationAttempted (targetLanguage : Option String) (transcript : String) : Bool :=
  effectiveTargetLanguage targetLanguage != "" &&
  effectiveTargetLanguage targetLanguage != "auto" &&
  strTrim transcript != ""

/-- POST /transcribe as a function of the request (file present?, optional
targetLanguage field, original filename) and of the stage outcomes
(conversion, transcription, Ollama translation call), producing the mp3
artifact named mp3Filename. -/
def postTranscribe (filePresent : Bool) (targetLanguage : Option String)
    (conversion : StageOutcome) (transcription : TrOutcome)
    (translationService : TrOutcome) (mp3Filename originalName : String) :
    TranscribeResponse :=
  if !filePresent then { status := 400, errorMsg := some "No audio file provided" }
  else
    match conversion with
    | .failure => { status := 500, errorMsg := some "Transcription failed" }
    | .success =>
      match transcription with
      | .fail => { status := 500, errorMsg := some "Transcription failed" }
      | .ok text =>
        let translation :=
          if translationAttempted targetLanguage text then
            match translationService with
            | .ok resp =>
              some { translatedText := strTrim resp
                     targetLanguage := effectiveTargetLanguage targetLanguage }
            | .fail => none
          else none
        { status := 200, transcription := some text, audioFile := some mp3Filename,
          translation := translation, originalFile := some originalName }

/-- C4: a one-shot upload job whose transcription succeeds but whose
translation call fails still completes successfully: the response is a 200
carrying the populated transcript and the canonical filename with a null
translation, for every request and transcript — the job does not fail. -/
theorem c4_translation_nonfatal (targetLanguage : Option String)
    (text mp3Filename originalName : String) :
    postTranscribe true targetLanguage .success (.ok text) .fail mp3Filename originalName =
      { status := 200, transcription := some text, audioFile := some mp3Filename,
        translation := none, originalFile := some originalName } := by
  unfold postTranscribe
  cases h : translationAttempted targetLanguage text <;> simp [h]

/-- C10 counterexample: with the targetLanguage field absent from the body,
the destructuring default 'en' applies and the translation IS attempted —
the response carries a non-null translation — refuting the claim that an
absent targetLanguage leaves the translation field null. -/
theorem c10_counterexample :
    (postTranscribe true none .success (.ok "hola") (.ok "Hello") "f.mp3" "o.wav").translation =
      some { translatedText := "Hello", targetLanguage := "en" } := by decide

theorem translationAttempted_iff (targetLanguage : Option String) (text : String) :
    translationAttempted targetLanguage text = true ↔
      (effectiveTargetLanguage targetLanguage ≠ "" ∧
       effectiveTargetLanguage targetLanguage ≠ "auto" ∧
       strTrim text ≠ "") := by
  simp [translationAttempted, and_assoc]

/-- C10 amended: on the one-shot upload path the translation step is
attempted exactly when the effective target language — the requested one,
defaulting to 'en' when the field is absent — is nonempty, differs from
the 'auto' sentinel, and the transcript is non-blank after trimming; in
every other case the translation field of the otherwise successful
response is null. -/
theorem c10_translation_guard (targetLanguage : Option String)
    (text svcText mp3Filename originalName : String) :
    ((postTranscribe true targetLanguage .success (.ok text) (.ok svcText)
        mp3Filename originalName).translation ≠ none ↔
      (effectiveTargetLanguage targetLanguage ≠ "" ∧
       effectiveTargetLanguage targetLanguage ≠ "auto" ∧
       strTrim text ≠ "")) ∧
    effectiveTargetLanguage none = "en" ∧
    (translationAttempted targetLanguage text = false →
      (postTranscribe true targetLanguage .success (.ok text) (.ok svcText)
        mp3Filename originalName).translation = none) := by
  refine ⟨?_, rfl, fun h => by simp [postTranscribe, h]⟩
  rw [← translationAttempted_iff]
  unfold postTranscribe
  cases h : translationAttempted targetLanguage text <;> simp [h]

/-- C10 amended witness: the guard characterisation at concrete inputs. -/
theorem c10_translation_guard_witness :
    ((postTranscribe true (some "auto") .success (.ok "hola") (.ok "Hello")
        "f.mp3" "o.wav").translation ≠ none ↔
      (effectiveTargetLanguage (some "auto") ≠ "" ∧
       effectiveTargetLanguage (some "auto") ≠ "auto" ∧
       strTrim "hola" ≠ "")) ∧
    effectiveTargetLanguage none = "en" ∧
    (postTranscribe true (some "auto") .success (.ok "hola") (.ok "Hello")
      "f.mp3" "o.wav").translation = none :=
  ⟨(c10_translation_guard (some "auto") "hola" "Hello" "f.mp3" "o.wav").1,
   (c10_translation_guard (some "auto") "hola" "Hello" "f.mp3" "o.wav").2.1,
   (c10_translation_guard (some "auto") "hola" "Hello" "f.mp3" "o.wav").2.2 (by decide)⟩

/-! ## Streaming notifications (handleAudioChunk / handleTranslation)

Source: on success handleAudioChunk sends a transcription message
  { type, text, audioFile, timestamp, sessionId: sessionId || uniqueId }
and, when the transcript is truthy and non-blank, calls handleTranslation
with { text, targetLanguage, sessionId: sessionId || uniqueId }.
handleTranslation destructures only text, targetLanguage and
sourceLanguage from its argument and sends
  { type: 'translation', originalText, translatedText, sourceLanguage,
    targetLanguage, timestamp }
— an object with no sessionId key.  Outgoing messages are modelled as a
record of optional fields, a missing JSON key being none; the
nondeterministic timestamp field is omitted. -/

/-- An outgoing WebSocket JSON message (fields absent from the sent object
are none). -/
structure WsMessage where
  type : String
  text : Option String := none
  audioFile : Option String := none
  sessionId : Option String := none
  originalText : Option String := none
  translatedText : Option String := none
  sourceLanguage : Option String := none
  targetLanguage : Option String := none
  message : Option String := none
deriving DecidableEq, Repr

/-- The data object handleAudioChunk passes to handleTranslation (with the
destructuring defaults of handleTranslation). -/
structure TranslateRequest where
  text : String
  targetLanguage : String := "en"
  sourceLanguage : String := "auto"
  sessionId : Option String := none
deriving DecidableEq, Repr

/-- The translation message handleTranslation sends on a successful Ollama
call: no sessionId key is included, whatever the request carried. -/
def handleTranslationMessage (d : TranslateRequest) (serviceResponse : String) : WsMessage :=
  { type := "translation"
    originalText := some d.text
    translatedText := some (strTrim serviceResponse)
    sourceLanguage := some d.sourceLanguage
    targetLanguage := some d.targetLanguage }

/-- The transcription notification of handleAudioChunk. -/
def streamTranscriptionMessage (sessionId : Option String) (uniqueId mp3Filename transcript : String) :
    WsMessage :=
  { type := "transcription"
    text := some transcript
    audioFile := some mp3Filename
    sessionId := some (sessionId.getD uniqueId) }

/-- The messages sent back on the originating connection by a fully
successful handleAudioChunk run whose translation call also succeeds. -/
def streamSuccessMessages (sessionId : Option String)
    (uniqueId mp3Filename transcript targetLang serviceResponse : String) : List WsMessage :=
  streamTranscriptionMessage sessionId uniqueId mp3Filename transcript ::
  (if transcript ≠ "" ∧ strTrim transcript ≠ "" then
    [handleTranslationMessage
      { text := transcript, targetLanguage := targetLang,
        sessionId := some (sessionId.getD uniqueId) } serviceResponse]
  else [])

/-- C8 counterexample: for a streaming job with caller-supplied session
token s1, the transcription notification is tagged sessionId = s1 but the
subsequent translation notification carries no sessionId field at all,
refuting the claim that both notifications carry the job's sessionId. -/
theorem c8_counterexample :
    (streamSuccessMessages (some "s1") "u1" "audio_1_u1.mp3" "hola" "en" "hi").map
        WsMessage.sessionId = [some "s1", none] ∧
    (streamSuccessMessages (some "s1") "u1" "audio_1_u1.mp3" "hola" "en" "hi").map
        WsMessage.type = ["transcription", "translation"] := by decide

/-- C8 amended: the transcription notification of a streaming job is tagged
with the job's sessionId — the caller-supplied token passed through
unmodified, defaulting to the job's unique identifier when absent — but
the translation notification that follows carries no sessionId field, even
though handleAudioChunk passes the sessionId to handleTranslation. -/
theorem c8_session_tagging (sessionId : Option String)
    (uniqueId mp3Filename transcript targetLang serviceResponse : String) :
    (streamTranscriptionMessage sessionId uniqueId mp3Filename transcript).sessionId =
      some (sessionId.getD uniqueId) ∧
    (streamSuccessMessages sessionId uniqueId mp3Filename transcript targetLang
        serviceResponse).map WsMessage.sessionId =
      (if transcript ≠ "" ∧ strTrim transcript ≠ "" then [some (sessionId.getD uniqueId), none]
       else [some (sessionId.getD uniqueId)]) := by
  refine ⟨rfl, ?_⟩
  unfold streamSuccessMessages
  split <;> simp [streamTranscriptionMessage, handleTranslationMessage]

/-! ## WebSocket message dispatch (wss.on('connection') message handler)

Source: the switch on data.type handles 'audio-chunk', 'translate' and
'get-models'; the default branch answers on the same connection with
  { type: 'error', message: 'Unknown message type' }. -/

/-- What the connection's message handler decides to do with an inbound
message, as a function of its type field. -/
inductive WsDispatch
  | audioChunk
  | translateText
  | getModels
  | errorResponse (message : String)
deriving DecidableEq, Repr

/-- The switch statement on data.type. -/
def dispatchMessage (msgType : String) : WsDispatch :=
  if msgType = "audio-chunk" then .audioChunk
  else if msgType = "translate" then .translateText
  else if msgType = "get-models" then .getModels
  else .errorResponse "Unknown message type"

/-- C9: every inbound streaming message whose type is none of audio-chunk,
translate and get-models is answered on the same connection with an error
message rather than silently dropped. -/
theorem c9_unknown_type_error (msgType : String)
    (h1 : msgType ≠ "audio-chunk") (h2 : msgType ≠ "translate")
    (h3 : msgType ≠ "get-models") :
    dispatchMessage msgType = .errorResponse "Unknown message type" := by
  simp [dispatchMessage, h1, h2, h3]

/-- C9 witness: a concrete unrecognised type produces the error response. -/
theorem c9_unknown_type_error_witness :
    dispatchMessage "ping" = .errorResponse "Unknown message type" :=
  c9_unknown_type_error "ping" (by decide) (by decide) (by decide)
